import Mathlib

/-!
Verification development for the `phongshading-todo` repository.

The only executable source file is `configTexture.js`, which configures a
cubemap skybox texture and general 2D color textures through the WebGL API.
We embed the relevant fragment of the WebGL state machine shallowly: GL
calls are commands that both append to a trace and update an explicit GL
state (active texture unit, per-unit binding points, per-texture images,
parameters and mipmap flags, integer uniforms).  The two source functions
`configureCubeMap` and `configureTexture` are translated line by line into
this embedding.  Parts of the repository that the specification describes
but that are not present under `src/` (the render loop, input handling and
the shadow fragment shader) are modelled from the specification and marked
as such in their doc comments.
-/

/-! WebGL numeric enum constants, as in the WebGL 2.0 specification. -/

def TEXTURE_2D : Nat := 0x0DE1

def TEXTURE_CUBE_MAP : Nat := 0x8513

def TEXTURE_CUBE_MAP_POSITIVE_X : Nat := 0x8515

def TEXTURE_CUBE_MAP_NEGATIVE_X : Nat := 0x8516

def TEXTURE_CUBE_MAP_POSITIVE_Y : Nat := 0x8517

def TEXTURE_CUBE_MAP_NEGATIVE_Y : Nat := 0x8518

def TEXTURE_CUBE_MAP_POSITIVE_Z : Nat := 0x8519

def TEXTURE_CUBE_MAP_NEGATIVE_Z : Nat := 0x851A

def TEXTURE_MAG_FILTER : Nat := 0x2800

def TEXTURE_MIN_FILTER : Nat := 0x2801

def TEXTURE_WRAP_S : Nat := 0x2802

def TEXTURE_WRAP_T : Nat := 0x2803

def LINEAR : Nat := 0x2601

def LINEAR_MIPMAP_LINEAR : Nat := 0x2703

def REPEAT : Nat := 0x2901

def RGB : Nat := 0x1907

def RGBA : Nat := 0x1908

def UNSIGNED_BYTE : Nat := 0x1401

def TEXTURE0 : Nat := 0x84C0

/-- Binding point through which an upload target is reached: the six cubemap
face targets are addressed through the `TEXTURE_CUBE_MAP` binding point;
every other target is its own binding point. -/
def bindingTargetOf (target : Nat) : Nat :=
  if TEXTURE_CUBE_MAP_POSITIVE_X ≤ target ∧ target ≤ TEXTURE_CUBE_MAP_NEGATIVE_Z then
    TEXTURE_CUBE_MAP
  else target

/-- GL commands issued by `configTexture.js`.  `createTexture` records the
identifier of the freshly created texture object; `texImage2D` records an
image by its source path. -/
inductive GLCmd : Type where
  | activeTexture (unit : Nat)
  | createTexture (tex : Nat)
  | bindTexture (target : Nat) (tex : Option Nat)
  | texImage2D (target level internalFormat format imgType : Nat) (image : String)
  | texParameteri (target pname param : Nat)
  | generateMipmap (target : Nat)
  | uniform1i (location : String) (value : Nat)
deriving DecidableEq, Repr

/-- Pointwise update of a two-argument map. -/
def set2 {α : Type} (f : Nat → Nat → α) (a b : Nat) (v : α) : Nat → Nat → α :=
  fun x y => if x = a then (if y = b then v else f x y) else f x y

/-- Pointwise update of a string-keyed map. -/
def set1 {α : Type} (f : String → α) (a : String) (v : α) : String → α :=
  fun x => if x = a then v else f x

/-- The fragment of WebGL context state touched by `configTexture.js`:
the active texture unit (stored as the raw `TEXTURE0 + i` enum), the next
fresh texture identifier, which texture object is bound to each binding
point of each unit, the image uploaded to each target of each texture
object, texture object parameters, mipmap generation flags, and integer
(sampler) uniforms keyed by uniform name. -/
structure GLState : Type where
  activeUnit : Nat
  nextTexId : Nat
  bound : Nat → Nat → Option Nat
  texImage : Nat → Nat → Option String
  texParam : Nat → Nat → Option Nat
  mipmapGenerated : Nat → Bool
  uniformInt : String → Option Nat

/-- Semantics of one GL command on the context state.  `createTexture`
yields a fresh object with no images, default-free parameters and no
mipmaps; `texParameteri`, `texImage2D` and `generateMipmap` act on the
texture currently bound to the relevant binding point of the active unit
and are no-ops (a silently recorded GL error) when nothing is bound. -/
def applyCmd (s : GLState) : GLCmd → GLState
  | .activeTexture u => { s with activeUnit := u }
  | .createTexture t =>
      { s with
        nextTexId := t + 1
        texImage := fun a b => if a = t then none else s.texImage a b
        texParam := fun a b => if a = t then none else s.texParam a b
        mipmapGenerated := fun a => if a = t then false else s.mipmapGenerated a }
  | .bindTexture target tex =>
      { s with bound := set2 s.bound s.activeUnit target tex }
  | .texImage2D target _ _ _ _ image =>
      match s.bound s.activeUnit (bindingTargetOf target) with
      | none => s
      | some t => { s with texImage := set2 s.texImage t target (some image) }
  | .texParameteri target pname param =>
      match s.bound s.activeUnit target with
      | none => s
      | some t => { s with texParam := set2 s.texParam t pname (some param) }
  | .generateMipmap target =>
      match s.bound s.activeUnit target with
      | none => s
      | some t =>
          { s with mipmapGenerated := fun a => if a = t then true else s.mipmapGenerated a }
  | .uniform1i location value =>
      { s with uniformInt := set1 s.uniformInt location (some value) }

/-- A GL context paired with the trace of commands issued so far. -/
structure GLCtx : Type where
  state : GLState
  trace : List GLCmd

/-- Issue one command: record it in the trace and apply its semantics. -/
def emit (g : GLCtx) (c : GLCmd) : GLCtx :=
  { state := applyCmd g.state c, trace := g.trace ++ [c] }

/-- `gl.activeTexture(unit)`. -/
def glActiveTexture (unit : Nat) (g : GLCtx) : GLCtx :=
  emit g (.activeTexture unit)

/-- `gl.createTexture()`: returns the fresh texture identifier. -/
def glCreateTexture (g : GLCtx) : Nat × GLCtx :=
  (g.state.nextTexId, emit g (.createTexture g.state.nextTexId))

/-- `gl.bindTexture(target, tex)`. -/
def glBindTexture (target : Nat) (tex : Option Nat) (g : GLCtx) : GLCtx :=
  emit g (.bindTexture target tex)

/-- `gl.texImage2D(target, level, internalFormat, format, type, image)`. -/
def glTexImage2D (target level internalFormat format imgType : Nat) (image : String)
    (g : GLCtx) : GLCtx :=
  emit g (.texImage2D target level internalFormat format imgType image)

/-- `gl.texParameteri(target, pname, param)`. -/
def glTexParameteri (target pname param : Nat) (g : GLCtx) : GLCtx :=
  emit g (.texParameteri target pname param)

/-- `gl.generateMipmap(target)`. -/
def glGenerateMipmap (target : Nat) (g : GLCtx) : GLCtx :=
  emit g (.generateMipmap target)

/-- `gl.uniform1i(gl.getUniformLocation(program, name), value)`; the uniform
location is modelled by the uniform's name. -/
def glUniform1i (location : String) (value : Nat) (g : GLCtx) : GLCtx :=
  emit g (.uniform1i location value)

/-- The deferred per-face `onload` closure of `configureCubeMap`: it captures
the face target and the image, and when invoked issues a single
`gl.texImage2D(face, 0, gl.RGB, gl.RGB, gl.UNSIGNED_BYTE, image)` against
whatever texture is bound at that time. -/
structure CubeCallback : Type where
  face : Nat
  image : String
deriving DecidableEq, Repr

/-- An `Image` element created by the cubemap loop: its `src`, its `onload`
handler, and its `onerror` handler.  The source assigns only `onload`;
`onerror` keeps its default empty value. -/
structure ImageRequest : Type where
  src : String
  onload : Option CubeCallback
  onerror : Option CubeCallback
deriving DecidableEq, Repr

/-- The `faces` array of `configureCubeMap`: image path paired with cubemap
face target, in source order. -/
def faces : List (String × Nat) :=
  [("./skybox/right.jpg", TEXTURE_CUBE_MAP_POSITIVE_X),
   ("./skybox/left.jpg", TEXTURE_CUBE_MAP_NEGATIVE_X),
   ("./skybox/top.jpg", TEXTURE_CUBE_MAP_POSITIVE_Y),
   ("./skybox/bottom.jpg", TEXTURE_CUBE_MAP_NEGATIVE_Y),
   ("./skybox/front.jpg", TEXTURE_CUBE_MAP_POSITIVE_Z),
   ("./skybox/back.jpg", TEXTURE_CUBE_MAP_NEGATIVE_Z)]

/-- `configureCubeMap(program)`: activates unit `TEXTURE0`, creates and binds
the cubemap texture, sets LINEAR mag/min filters, binds the `cubeSampler`
uniform to unit 0, and schedules six image loads whose `onload` closures
upload each face.  Returns the created texture id, the context after the
synchronous part, and the six pending image requests. -/
def configureCubeMap (program : Nat) (g : GLCtx) : Nat × GLCtx × List ImageRequest :=
  let g := glActiveTexture TEXTURE0 g
  let p := glCreateTexture g
  let cubeMap := p.1
  let g := p.2
  let g := glBindTexture TEXTURE_CUBE_MAP (some cubeMap) g
  let g := glTexParameteri TEXTURE_CUBE_MAP TEXTURE_MAG_FILTER LINEAR g
  let g := glTexParameteri TEXTURE_CUBE_MAP TEXTURE_MIN_FILTER LINEAR g
  let g := glUniform1i "cubeSampler" 0 g
  let requests := faces.map fun f =>
    { src := f.1
      onload := some { face := f.2, image := f.1 }
      onerror := none }
  (cubeMap, g, requests)

/-- `configureTexture(image)`: creates and binds a 2D texture, uploads the
image, configures trilinear minification, linear magnification and REPEAT
wrap on both axes, generates mipmaps, unbinds, and returns the texture. -/
def configureTexture (image : String) (g : GLCtx) : Nat × GLCtx :=
  let p := glCreateTexture g
  let texture := p.1
  let g := p.2
  let g := glBindTexture TEXTURE_2D (some texture) g
  let g := glTexImage2D TEXTURE_2D 0 RGBA RGBA UNSIGNED_BYTE image g
  let g := glTexParameteri TEXTURE_2D TEXTURE_MIN_FILTER LINEAR_MIPMAP_LINEAR g
  let g := glTexParameteri TEXTURE_2D TEXTURE_MAG_FILTER LINEAR g
  let g := glTexParameteri TEXTURE_2D TEXTURE_WRAP_S REPEAT g
  let g := glTexParameteri TEXTURE_2D TEXTURE_WRAP_T REPEAT g
  let g := glGenerateMipmap TEXTURE_2D g
  let g := glBindTexture TEXTURE_2D none g
  (texture, g)

/-- Run one cubemap `onload` closure on the context state. -/
def runCubeCallback (cb : CubeCallback) (s : GLState) : GLState :=
  applyCmd s (.texImage2D cb.face 0 RGB RGB UNSIGNED_BYTE cb.image)

/-- Deliver a load-completion event for an image request: on success its
`onload` handler runs (if any); on failure its `onerror` handler runs (if
any).  A handler slot holding `none` leaves the state untouched. -/
def fireLoadEvent (ok : Bool) (r : ImageRequest) (s : GLState) : GLState :=
  if ok then
    match r.onload with
    | some cb => runCubeCallback cb s
    | none => s
  else
    match r.onerror with
    | some cb => runCubeCallback cb s
    | none => s

/-- The `onload` closure scheduled for face index `i` of the cubemap loop. -/
def cubeCallbackAt (i : Fin 6) : CubeCallback :=
  { face := (faces.get ⟨i, by simp [faces]⟩).2, image := (faces.get ⟨i, by simp [faces]⟩).1 }

/-- Run the six face `onload` closures in the completion order given by
`order` (a list of face indices). -/
def runCubeCallbacks (order : List (Fin 6)) (s : GLState) : GLState :=
  order.foldl (fun s i => runCubeCallback (cubeCallbackAt i) s) s

/-- The canonical completion order: face indices in source order. -/
def cubeOrderAll : List (Fin 6) := [0, 1, 2, 3, 4, 5]

/-- A pristine GL context state: unit 0 active, nothing bound, no textures. -/
def initGLState : GLState :=
  { activeUnit := TEXTURE0
    nextTexId := 1
    bound := fun _ _ => none
    texImage := fun _ _ => none
    texParam := fun _ _ => none
    mipmapGenerated := fun _ => false
    uniformInt := fun _ => none }

/-- A pristine GL context with an empty trace. -/
def initGL : GLCtx :=
  { state := initGLState, trace := [] }

theorem set2_get_same {α : Type} (f : Nat → Nat → α) (a b : Nat) (v : α) :
    set2 f a b v a b = v := by
  simp [set2]

theorem set2_get_ne_right {α : Type} (f : Nat → Nat → α) (a b x y : Nat) (v : α)
    (h : y ≠ b) : set2 f a b v x y = f x y := by
  simp [set2, h]

theorem set2_get_ne_left {α : Type} (f : Nat → Nat → α) (a b x y : Nat) (v : α)
    (h : x ≠ a) : set2 f a b v x y = f x y := by
  simp [set2, h]

theorem set2_overwrite {α : Type} (f : Nat → Nat → α) (a b : Nat) (v w : α) :
    set2 (set2 f a b v) a b w = set2 f a b w := by
  funext x y
  by_cases hx : x = a <;> by_cases hy : y = b <;> simp [set2, hx, hy]

theorem set1_get_same {α : Type} (f : String → α) (a : String) (v : α) :
    set1 f a v a = v := by
  simp [set1]

theorem set1_get_ne {α : Type} (f : String → α) (a x : String) (v : α) (h : x ≠ a) :
    set1 f a v x = f x := by
  simp [set1, h]

/-- Explicit description of the synchronous effect of `configureCubeMap`:
the returned texture identifier is the context's next fresh id, and the
resulting state activates unit 0, binds the fresh cubemap there, clears the
fresh texture's per-object state, sets its LINEAR mag/min filters and binds
the `cubeSampler` uniform to 0. -/
theorem configureCubeMap_state (program : Nat) (g : GLCtx) :
    (configureCubeMap program g).1 = g.state.nextTexId
    ∧ (configureCubeMap program g).2.1.state =
      { activeUnit := TEXTURE0
        nextTexId := g.state.nextTexId + 1
        bound := set2 g.state.bound TEXTURE0 TEXTURE_CUBE_MAP (some g.state.nextTexId)
        texImage := fun a b => if a = g.state.nextTexId then none else g.state.texImage a b
        texParam := set2 (set2
          (fun a b => if a = g.state.nextTexId then none else g.state.texParam a b)
          g.state.nextTexId TEXTURE_MAG_FILTER (some LINEAR))
          g.state.nextTexId TEXTURE_MIN_FILTER (some LINEAR)
        mipmapGenerated := fun a => if a = g.state.nextTexId then false else g.state.mipmapGenerated a
        uniformInt := set1 g.state.uniformInt "cubeSampler" (some 0) } := by
  refine ⟨rfl, ?_⟩
  simp [configureCubeMap, glActiveTexture, glCreateTexture, glBindTexture,
    glTexParameteri, glUniform1i, emit, applyCmd, set2_get_same]

/-- Explicit description of the effect of `configureTexture`: the returned
texture identifier is the context's next fresh id, and the resulting state
leaves the 2D binding point of the active unit cleared, stores the uploaded
image at level-0 of `TEXTURE_2D`, sets trilinear minification, linear
magnification and REPEAT wrap, and marks mipmaps as generated. -/
theorem configureTexture_state (image : String) (g : GLCtx) :
    (configureTexture image g).1 = g.state.nextTexId
    ∧ (configureTexture image g).2.state =
      { activeUnit := g.state.activeUnit
        nextTexId := g.state.nextTexId + 1
        bound := set2 g.state.bound g.state.activeUnit TEXTURE_2D none
        texImage := set2
          (fun a b => if a = g.state.nextTexId then none else g.state.texImage a b)
          g.state.nextTexId TEXTURE_2D (some image)
        texParam := set2 (set2 (set2 (set2
          (fun a b => if a = g.state.nextTexId then none else g.state.texParam a b)
          g.state.nextTexId TEXTURE_MIN_FILTER (some LINEAR_MIPMAP_LINEAR))
          g.state.nextTexId TEXTURE_MAG_FILTER (some LINEAR))
          g.state.nextTexId TEXTURE_WRAP_S (some REPEAT))
          g.state.nextTexId TEXTURE_WRAP_T (some REPEAT)
        mipmapGenerated := fun a =>
          if a = g.state.nextTexId then true else g.state.mipmapGenerated a
        uniformInt := g.state.uniformInt } := by
  refine ⟨rfl, ?_⟩
  simp [configureTexture, glCreateTexture, glBindTexture, glTexImage2D,
    glTexParameteri, glGenerateMipmap, emit, applyCmd, set2_get_same, bindingTargetOf,
    TEXTURE_CUBE_MAP_POSITIVE_X, TEXTURE_CUBE_MAP_NEGATIVE_Z, TEXTURE_2D]
  refine ⟨set2_overwrite _ _ _ _ _, ?_⟩
  funext a
  by_cases h : a = g.state.nextTexId <;> simp [h]

/-- A cubemap `onload` closure only uploads image data: every other
component of the context state is untouched. -/
theorem runCubeCallback_frame (cb : CubeCallback) (s : GLState) :
    (runCubeCallback cb s).activeUnit = s.activeUnit
    ∧ (runCubeCallback cb s).nextTexId = s.nextTexId
    ∧ (runCubeCallback cb s).bound = s.bound
    ∧ (runCubeCallback cb s).texParam = s.texParam
    ∧ (runCubeCallback cb s).mipmapGenerated = s.mipmapGenerated
    ∧ (runCubeCallback cb s).uniformInt = s.uniformInt := by
  cases h : s.bound s.activeUnit (bindingTargetOf cb.face) <;>
    simp [runCubeCallback, applyCmd, h]

/-- Running any sequence of face `onload` closures leaves every component of
the context state other than the uploaded images untouched. -/
theorem runCubeCallbacks_frame (order : List (Fin 6)) (s : GLState) :
    (runCubeCallbacks order s).activeUnit = s.activeUnit
    ∧ (runCubeCallbacks order s).nextTexId = s.nextTexId
    ∧ (runCubeCallbacks order s).bound = s.bound
    ∧ (runCubeCallbacks order s).texParam = s.texParam
    ∧ (runCubeCallbacks order s).mipmapGenerated = s.mipmapGenerated
    ∧ (runCubeCallbacks order s).uniformInt = s.uniformInt := by
  induction order generalizing s with
  | nil => exact ⟨rfl, rfl, rfl, rfl, rfl, rfl⟩
  | cons i rest ih =>
    obtain ⟨a1, n1, b1, p1, m1, u1⟩ := runCubeCallback_frame (cubeCallbackAt i) s
    obtain ⟨a2, n2, b2, p2, m2, u2⟩ := ih (runCubeCallback (cubeCallbackAt i) s)
    exact ⟨a2.trans a1, n2.trans n1, b2.trans b1, p2.trans p1, m2.trans m1, u2.trans u1⟩

/-- The six image requests scheduled by `configureCubeMap`, explicitly. -/
theorem configureCubeMap_requests (program : Nat) (g : GLCtx) :
    (configureCubeMap program g).2.2 =
      [⟨"./skybox/right.jpg", some ⟨TEXTURE_CUBE_MAP_POSITIVE_X, "./skybox/right.jpg"⟩, none⟩,
       ⟨"./skybox/left.jpg", some ⟨TEXTURE_CUBE_MAP_NEGATIVE_X, "./skybox/left.jpg"⟩, none⟩,
       ⟨"./skybox/top.jpg", some ⟨TEXTURE_CUBE_MAP_POSITIVE_Y, "./skybox/top.jpg"⟩, none⟩,
       ⟨"./skybox/bottom.jpg", some ⟨TEXTURE_CUBE_MAP_NEGATIVE_Y, "./skybox/bottom.jpg"⟩, none⟩,
       ⟨"./skybox/front.jpg", some ⟨TEXTURE_CUBE_MAP_POSITIVE_Z, "./skybox/front.jpg"⟩, none⟩,
       ⟨"./skybox/back.jpg", some ⟨TEXTURE_CUBE_MAP_NEGATIVE_Z, "./skybox/back.jpg"⟩, none⟩] :=
  rfl

/-- C1: for every input image, `configureTexture` performs the 2D texture
upload steps in exactly this order: create-and-bind a texture (the created
texture is the one bound and the one returned), upload the pixel data, set
the minification filter to LINEAR_MIPMAP_LINEAR, set the magnification
filter to LINEAR, set the wrap mode to REPEAT on S and on T, generate
mipmaps, and finally unbind the TEXTURE_2D target. -/
theorem configureTexture_upload_order (image : String) (g : GLCtx) :
    (configureTexture image g).1 = g.state.nextTexId
    ∧ (configureTexture image g).2.trace =
      g.trace ++
        [GLCmd.createTexture g.state.nextTexId,
         GLCmd.bindTexture TEXTURE_2D (some g.state.nextTexId),
         GLCmd.texImage2D TEXTURE_2D 0 RGBA RGBA UNSIGNED_BYTE image,
         GLCmd.texParameteri TEXTURE_2D TEXTURE_MIN_FILTER LINEAR_MIPMAP_LINEAR,
         GLCmd.texParameteri TEXTURE_2D TEXTURE_MAG_FILTER LINEAR,
         GLCmd.texParameteri TEXTURE_2D TEXTURE_WRAP_S REPEAT,
         GLCmd.texParameteri TEXTURE_2D TEXTURE_WRAP_T REPEAT,
         GLCmd.generateMipmap TEXTURE_2D,
         GLCmd.bindTexture TEXTURE_2D none] := by
  refine ⟨rfl, ?_⟩
  simp [configureTexture, glCreateTexture, glBindTexture, glTexImage2D, glTexParameteri,
    glGenerateMipmap, emit]

/-- C5: `configureCubeMap` requests exactly six face images with the fixed
names right/left/top/bottom/front/back, maps each to the corresponding
cubemap face target (right to +X, left to -X, top to +Y, bottom to -Y,
front to +Z, back to -Z), and the six face targets are pairwise distinct,
so all six faces are covered exactly once. -/
theorem configureCubeMap_six_faces (program : Nat) (g : GLCtx) :
    ((configureCubeMap program g).2.2.map fun r => (r.src, r.onload)) =
      [("./skybox/right.jpg", some ⟨TEXTURE_CUBE_MAP_POSITIVE_X, "./skybox/right.jpg"⟩),
       ("./skybox/left.jpg", some ⟨TEXTURE_CUBE_MAP_NEGATIVE_X, "./skybox/left.jpg"⟩),
       ("./skybox/top.jpg", some ⟨TEXTURE_CUBE_MAP_POSITIVE_Y, "./skybox/top.jpg"⟩),
       ("./skybox/bottom.jpg", some ⟨TEXTURE_CUBE_MAP_NEGATIVE_Y, "./skybox/bottom.jpg"⟩),
       ("./skybox/front.jpg", some ⟨TEXTURE_CUBE_MAP_POSITIVE_Z, "./skybox/front.jpg"⟩),
       ("./skybox/back.jpg", some ⟨TEXTURE_CUBE_MAP_NEGATIVE_Z, "./skybox/back.jpg"⟩)]
    ∧ (faces.map Prod.snd).Nodup
    ∧ faces.map Prod.snd =
        [TEXTURE_CUBE_MAP_POSITIVE_X, TEXTURE_CUBE_MAP_NEGATIVE_X,
         TEXTURE_CUBE_MAP_POSITIVE_Y, TEXTURE_CUBE_MAP_NEGATIVE_Y,
         TEXTURE_CUBE_MAP_POSITIVE_Z, TEXTURE_CUBE_MAP_NEGATIVE_Z] := by
  exact ⟨rfl, by decide, rfl⟩

/-- C10: frame condition on GL binding state.  `configureTexture` returns
with the TEXTURE_2D binding point of the active unit cleared (bound to
null), while `configureCubeMap` returns with its newly created cubemap
texture still bound to the TEXTURE_CUBE_MAP binding point of unit 0, and
running any sequence of deferred per-face `onload` callbacks never unbinds
it, so the deferred uploads can rely on that binding. -/
theorem binding_state_frame (image : String) (program : Nat) (g1 g2 : GLCtx)
    (order : List (Fin 6)) :
    (configureTexture image g1).2.state.bound
        (configureTexture image g1).2.state.activeUnit TEXTURE_2D = none
    ∧ (runCubeCallbacks order (configureCubeMap program g2).2.1.state).bound
        TEXTURE0 TEXTURE_CUBE_MAP = some (configureCubeMap program g2).1
    ∧ (runCubeCallbacks order (configureCubeMap program g2).2.1.state).activeUnit
        = TEXTURE0 := by
  obtain ⟨ht, hts⟩ := configureTexture_state image g1
  obtain ⟨hc, hcs⟩ := configureCubeMap_state program g2
  obtain ⟨ha, _, hb, _, _, _⟩ := runCubeCallbacks_frame order (configureCubeMap program g2).2.1.state
  refine ⟨?_, ?_, ?_⟩
  · rw [hts]
    simp [set2_get_same]
  · rw [hb, hcs, hc]
    simp [set2_get_same]
  · rw [ha, hcs]

/-- C9: the cubemap texture created by `configureCubeMap` gets plain LINEAR
filtering for both minification and magnification and no mipmap generation
(also after any sequence of face uploads), whereas a 2D texture from
`configureTexture` gets LINEAR_MIPMAP_LINEAR minification, LINEAR
magnification and generated mipmaps. -/
theorem cubemap_linear_vs_texture_trilinear (image : String) (program : Nat)
    (g1 g2 : GLCtx) (order : List (Fin 6)) :
    (runCubeCallbacks order (configureCubeMap program g2).2.1.state).texParam
        (configureCubeMap program g2).1 TEXTURE_MIN_FILTER = some LINEAR
    ∧ (runCubeCallbacks order (configureCubeMap program g2).2.1.state).texParam
        (configureCubeMap program g2).1 TEXTURE_MAG_FILTER = some LINEAR
    ∧ (runCubeCallbacks order (configureCubeMap program g2).2.1.state).mipmapGenerated
        (configureCubeMap program g2).1 = false
    ∧ (configureTexture image g1).2.state.texParam
        (configureTexture image g1).1 TEXTURE_MIN_FILTER = some LINEAR_MIPMAP_LINEAR
    ∧ (configureTexture image g1).2.state.texParam
        (configureTexture image g1).1 TEXTURE_MAG_FILTER = some LINEAR
    ∧ (configureTexture image g1).2.state.mipmapGenerated
        (configureTexture image g1).1 = true := by
  obtain ⟨ht, hts⟩ := configureTexture_state image g1
  obtain ⟨hc, hcs⟩ := configureCubeMap_state program g2
  obtain ⟨_, _, _, hp, hm, _⟩ := runCubeCallbacks_frame order (configureCubeMap program g2).2.1.state
  refine ⟨?_, ?_, ?_, ?_, ?_, ?_⟩
  · rw [hp, hcs, hc]
    simp [set2, TEXTURE_MIN_FILTER, TEXTURE_MAG_FILTER]
  · rw [hp, hcs, hc]
    simp [set2, TEXTURE_MIN_FILTER, TEXTURE_MAG_FILTER]
  · rw [hm, hcs, hc]
    simp
  · rw [hts, ht]
    simp [set2, TEXTURE_MIN_FILTER, TEXTURE_MAG_FILTER, TEXTURE_WRAP_S, TEXTURE_WRAP_T]
  · rw [hts, ht]
    simp [set2, TEXTURE_MIN_FILTER, TEXTURE_MAG_FILTER, TEXTURE_WRAP_S, TEXTURE_WRAP_T]
  · rw [hts, ht]
    simp

/-- Modelled from the spec: the sampler-uniform setup performed by the main
program (`Phongshading.js`, not present under `src/`), which binds the
cubemap sampler to texture unit 0, the diffuse 2D sampler to unit 1 and the
shadow depth sampler to unit 2. -/
def configureSamplerUnits (g : GLCtx) : GLCtx :=
  let g := glUniform1i "cubeSampler" 0 g
  let g := glUniform1i "diffuseSampler" 1 g
  let g := glUniform1i "shadowSampler" 2 g
  g

/-- The fixed texture unit assignment: unit 0 holds the cubemap sampler,
unit 1 the diffuse 2D sampler, unit 2 the shadow depth sampler. -/
def samplerContract (s : GLState) : Prop :=
  s.uniformInt "cubeSampler" = some 0
  ∧ s.uniformInt "diffuseSampler" = some 1
  ∧ s.uniformInt "shadowSampler" = some 2

instance samplerContractDecidable (s : GLState) : Decidable (samplerContract s) :=
  inferInstanceAs (Decidable (_ ∧ _ ∧ _))

/-- C4: the texture unit assignment is fixed and preserved by every
operation: the sampler setup establishes cubemap on unit 0, diffuse on
unit 1 and shadow depth on unit 2; `configureTexture`, `configureCubeMap`
and the deferred face uploads all preserve that assignment; and in
particular `configureCubeMap` activates unit 0 and binds the `cubeSampler`
uniform to 0. -/
theorem texture_unit_contract :
    (∀ g : GLCtx, samplerContract (configureSamplerUnits g).state)
    ∧ (∀ (g : GLCtx) (image : String), samplerContract g.state →
        samplerContract (configureTexture image g).2.state)
    ∧ (∀ (g : GLCtx) (program : Nat), samplerContract g.state →
        samplerContract (configureCubeMap program g).2.1.state)
    ∧ (∀ (s : GLState) (order : List (Fin 6)), samplerContract s →
        samplerContract (runCubeCallbacks order s))
    ∧ (∀ (g : GLCtx) (program : Nat),
        (configureCubeMap program g).2.1.state.activeUnit = TEXTURE0
        ∧ (configureCubeMap program g).2.1.state.uniformInt "cubeSampler" = some 0) := by
  refine ⟨?_, ?_, ?_, ?_, ?_⟩
  · intro g
    refine ⟨?_, ?_, ?_⟩ <;>
      simp [configureSamplerUnits, glUniform1i, emit, applyCmd, set1]
  · intro g image h
    obtain ⟨_, hts⟩ := configureTexture_state image g
    unfold samplerContract at h ⊢
    rw [hts]
    exact h
  · intro g program h
    obtain ⟨_, hcs⟩ := configureCubeMap_state program g
    unfold samplerContract at h ⊢
    rw [hcs]
    refine ⟨?_, ?_, ?_⟩ <;> simp [set1, h.2.1, h.2.2]
  · intro s order h
    obtain ⟨_, _, _, _, _, hu⟩ := runCubeCallbacks_frame order s
    unfold samplerContract at h ⊢
    rw [hu]
    exact h
  · intro g program
    obtain ⟨_, hcs⟩ := configureCubeMap_state program g
    rw [hcs]
    exact ⟨rfl, by simp [set1]⟩

theorem texture_unit_contract_witness :
    samplerContract (configureTexture "wood.png" (configureSamplerUnits initGL)).2.state
    ∧ samplerContract
        (runCubeCallbacks [0] (configureCubeMap 7 (configureSamplerUnits initGL)).2.1.state) :=
  ⟨texture_unit_contract.2.1 (configureSamplerUnits initGL) "wood.png" (by decide),
   texture_unit_contract.2.2.2.1
     (configureCubeMap 7 (configureSamplerUnits initGL)).2.1.state [0] (by decide)⟩

/-- The cubemap face target captured by the `onload` closure of index `i`. -/
def cubeFaceTarget (i : Fin 6) : Nat :=
  (cubeCallbackAt i).face

/-- The image path captured by the `onload` closure of index `i`. -/
def cubeImageSrc (i : Fin 6) : String :=
  (cubeCallbackAt i).image

theorem cubeFaceTarget_injective :
    ∀ i j : Fin 6, i ≠ j → cubeFaceTarget i ≠ cubeFaceTarget j := by
  decide

theorem bindingTargetOf_cubeFace (i : Fin 6) :
    bindingTargetOf (cubeCallbackAt i).face = TEXTURE_CUBE_MAP := by
  fin_cases i <;> rfl

/-- Deliver the load-completion event of face index `i` against the request
list `rs`: fires the request's `onload` or `onerror` handler according to
whether its image decoded successfully. -/
def loadStep (loaded : Fin 6 → Bool) (rs : List ImageRequest) (s : GLState) (i : Fin 6) :
    GLState :=
  match rs.get? i.val with
  | some r => fireLoadEvent (loaded i) r s
  | none => s

/-- Deliver load-completion events for the faces listed in `order`, in that
order, each succeeding or failing according to `loaded`. -/
def processLoadEvents (loaded : Fin 6 → Bool) (order : List (Fin 6))
    (rs : List ImageRequest) (s : GLState) : GLState :=
  order.foldl (loadStep loaded rs) s

theorem requests_get (program : Nat) (g : GLCtx) (i : Fin 6) :
    (configureCubeMap program g).2.2.get? i.val
      = some ⟨cubeImageSrc i, some (cubeCallbackAt i), none⟩ := by
  fin_cases i <;> rfl

/-- If face `i` never loads, no event ever writes to its face target: the
slot stays empty through any sequence of load-completion events. -/
theorem processLoadEvents_unloaded (program : Nat) (g : GLCtx)
    (loaded : Fin 6 → Bool) (i : Fin 6) (hfail : loaded i = false) :
    ∀ (order : List (Fin 6)) (s : GLState) (a : Nat),
      s.texImage a (cubeFaceTarget i) = none →
      (processLoadEvents loaded order (configureCubeMap program g).2.2 s).texImage
        a (cubeFaceTarget i) = none := by
  intro order
  induction order with
  | nil => intro s a h; exact h
  | cons j rest ih =>
    intro s a h
    have hcons : processLoadEvents loaded (j :: rest) (configureCubeMap program g).2.2 s
        = processLoadEvents loaded rest (configureCubeMap program g).2.2
            (loadStep loaded (configureCubeMap program g).2.2 s j) := rfl
    rw [hcons]
    apply ih
    simp only [loadStep, requests_get program g j]
    by_cases hj : j = i
    · subst hj
      rw [hfail]
      simpa [fireLoadEvent] using h
    · cases hLj : loaded j with
      | false => simpa [fireLoadEvent] using h
      | true =>
        have hne : cubeFaceTarget i ≠ cubeFaceTarget j :=
          cubeFaceTarget_injective i j fun hij => hj hij.symm
        simp only [fireLoadEvent, if_true]
        cases hb : s.bound s.activeUnit (bindingTargetOf (cubeCallbackAt j).face) with
        | none => simpa [runCubeCallback, applyCmd, hb] using h
        | some t =>
          simp only [runCubeCallback, applyCmd, hb]
          exact (set2_get_ne_right s.texImage t (cubeCallbackAt j).face a (cubeFaceTarget i)
            (some (cubeCallbackAt j).image) hne).trans h

/-- C3: for any image that fails to load, the texture-loading code takes no
error branch and raises no error: no request has an `onerror` handler, a
failure event leaves the state untouched (execution continues normally),
and after any sequence of load-completion events the failed face's slot of
the cubemap texture is simply left unpopulated. -/
theorem image_load_failure_silent (program : Nat) (g : GLCtx)
    (loaded : Fin 6 → Bool) (order : List (Fin 6)) (i : Fin 6)
    (hfail : loaded i = false) :
    (∀ r ∈ (configureCubeMap program g).2.2, r.onerror = none)
    ∧ (∀ (r : ImageRequest) (s : GLState), r.onerror = none → fireLoadEvent false r s = s)
    ∧ (processLoadEvents loaded order (configureCubeMap program g).2.2
        (configureCubeMap program g).2.1.state).texImage
        (configureCubeMap program g).1 (cubeFaceTarget i) = none := by
  refine ⟨?_, ?_, ?_⟩
  · intro r hr
    rw [configureCubeMap_requests] at hr
    fin_cases hr <;> rfl
  · intro r s hr
    simp [fireLoadEvent, hr]
  · apply processLoadEvents_unloaded program g loaded i hfail
    obtain ⟨hc, hcs⟩ := configureCubeMap_state program g
    rw [hcs, hc]
    simp

theorem image_load_failure_silent_witness :
    (processLoadEvents (fun j => decide (j ≠ 0)) [0, 1, 2, 3, 4, 5]
        (configureCubeMap 7 initGL).2.2 (configureCubeMap 7 initGL).2.1.state).texImage
        (configureCubeMap 7 initGL).1 (cubeFaceTarget 0) = none
    ∧ fireLoadEvent false
        ⟨"./skybox/right.jpg", some ⟨TEXTURE_CUBE_MAP_POSITIVE_X, "./skybox/right.jpg"⟩, none⟩
        initGLState = initGLState :=
  ⟨(image_load_failure_silent 7 initGL (fun j => decide (j ≠ 0)) [0, 1, 2, 3, 4, 5] 0
      (by decide)).2.2,
   (image_load_failure_silent 7 initGL (fun j => decide (j ≠ 0)) [0, 1, 2, 3, 4, 5] 0
      (by decide)).2.1 _ initGLState rfl⟩

theorem runCubeCallback_noop (cb : CubeCallback) (s : GLState)
    (hb : s.bound s.activeUnit (bindingTargetOf cb.face) = none) :
    runCubeCallback cb s = s := by
  simp [runCubeCallback, applyCmd, hb]

theorem runCubeCallback_writes (cb : CubeCallback) (s : GLState) (t : Nat)
    (hb : s.bound s.activeUnit (bindingTargetOf cb.face) = some t) :
    runCubeCallback cb s = { s with texImage := set2 s.texImage t cb.face (some cb.image) } := by
  simp [runCubeCallback, applyCmd, hb]

theorem set2_comm_right {α : Type} (f : Nat → Nat → α) (a : Nat) {b d : Nat}
    (h : b ≠ d) (v w : α) :
    set2 (set2 f a b v) a d w = set2 (set2 f a d w) a b v := by
  funext x y
  by_cases hx : x = a <;> by_cases hy1 : y = b <;> by_cases hy2 : y = d <;>
    simp_all [set2]

/-- Two face `onload` closures commute: delivering them in either order
produces the same context state. -/
theorem cubeStep_comm (s : GLState) (i j : Fin 6) :
    runCubeCallback (cubeCallbackAt j) (runCubeCallback (cubeCallbackAt i) s)
      = runCubeCallback (cubeCallbackAt i) (runCubeCallback (cubeCallbackAt j) s) := by
  by_cases hij : i = j
  · subst hij; rfl
  · cases hb : s.bound s.activeUnit TEXTURE_CUBE_MAP with
    | none =>
      have hi := runCubeCallback_noop (cubeCallbackAt i) s
        (by rw [bindingTargetOf_cubeFace]; exact hb)
      have hj := runCubeCallback_noop (cubeCallbackAt j) s
        (by rw [bindingTargetOf_cubeFace]; exact hb)
      rw [hi, hj, hi]
    | some t =>
      have hface : (cubeCallbackAt i).face ≠ (cubeCallbackAt j).face :=
        cubeFaceTarget_injective i j hij
      rw [runCubeCallback_writes (cubeCallbackAt i) s t
            (by rw [bindingTargetOf_cubeFace]; exact hb),
          runCubeCallback_writes (cubeCallbackAt j) s t
            (by rw [bindingTargetOf_cubeFace]; exact hb),
          runCubeCallback_writes (cubeCallbackAt j) _ t
            (by rw [bindingTargetOf_cubeFace]; exact hb),
          runCubeCallback_writes (cubeCallbackAt i) _ t
            (by rw [bindingTargetOf_cubeFace]; exact hb)]
      have hcomm := set2_comm_right s.texImage t hface
        (some (cubeCallbackAt i).image) (some (cubeCallbackAt j).image)
      simp [hcomm]

theorem foldl_perm_of_comm {α β : Type} (f : β → α → β)
    (hc : ∀ (b : β) (a1 a2 : α), f (f b a1) a2 = f (f b a2) a1) :
    ∀ {l1 l2 : List α}, l1.Perm l2 → ∀ b : β, l1.foldl f b = l2.foldl f b := by
  intro l1 l2 hperm
  induction hperm with
  | nil => intro b; rfl
  | cons x _ ih =>
    intro b
    simp only [List.foldl]
    exact ih (f b x)
  | swap x y l =>
    intro b
    simp only [List.foldl]
    rw [hc b y x]
  | trans _ _ ih1 ih2 =>
    intro b
    rw [ih1 b, ih2 b]

/-- Faces whose index never appears in the completion order are never
written by the delivered `onload` closures. -/
theorem runCubeCallbacks_other (order : List (Fin 6)) (i : Fin 6)
    (hni : i ∉ order) :
    ∀ (s : GLState) (a : Nat),
      (runCubeCallbacks order s).texImage a (cubeFaceTarget i)
        = s.texImage a (cubeFaceTarget i) := by
  induction order with
  | nil => intro s a; rfl
  | cons j rest ih =>
    intro s a
    have hji : i ≠ j := fun h => hni (h ▸ List.mem_cons_self j rest)
    have hrest : i ∉ rest := fun h => hni (List.mem_cons_of_mem j h)
    have hcons : runCubeCallbacks (j :: rest) s
        = runCubeCallbacks rest (runCubeCallback (cubeCallbackAt j) s) := rfl
    rw [hcons, ih hrest]
    cases hb : s.bound s.activeUnit (bindingTargetOf (cubeCallbackAt j).face) with
    | none => rw [runCubeCallback_noop _ _ hb]
    | some t =>
      rw [runCubeCallback_writes _ _ t hb]
      exact set2_get_ne_right s.texImage t (cubeCallbackAt j).face a (cubeFaceTarget i)
        (some (cubeCallbackAt j).image) (cubeFaceTarget_injective i j hji)

/-- Once face `i`'s `onload` closure is among the delivered events, and the
cubemap texture `t` is bound on the active unit, face `i` of `t` holds its
own image afterwards. -/
theorem runCubeCallbacks_face_mem (order : List (Fin 6)) (i : Fin 6)
    (hmem : i ∈ order) :
    ∀ (s : GLState) (t : Nat), s.bound s.activeUnit TEXTURE_CUBE_MAP = some t →
      (runCubeCallbacks order s).texImage t (cubeFaceTarget i)
        = some (cubeImageSrc i) := by
  induction order with
  | nil => exact absurd hmem (List.not_mem_nil i)
  | cons k rest ih =>
    intro s t hb
    have hcons : runCubeCallbacks (k :: rest) s
        = runCubeCallbacks rest (runCubeCallback (cubeCallbackAt k) s) := rfl
    rw [hcons]
    by_cases hk : i ∈ rest
    · obtain ⟨ha, _, hbd, _, _, _⟩ := runCubeCallback_frame (cubeCallbackAt k) s
      exact ih hk _ t (by rw [ha, hbd]; exact hb)
    · have hik : i = k := by
        rcases List.mem_cons.mp hmem with h | h
        · exact h
        · exact absurd h hk
      subst hik
      rw [runCubeCallbacks_other rest i hk]
      rw [runCubeCallback_writes (cubeCallbackAt i) s t
        (by rw [bindingTargetOf_cubeFace]; exact hb)]
      exact set2_get_same _ _ _ _

/-- C2: the six per-face load-completion callbacks commute: delivering them
in any two permuted orders yields the same texture state; each callback
uploads exactly its own image to its own face target and touches no other
target; and after all six have completed, in whatever order, every face of
the cubemap holds its own image. -/
theorem cube_onload_commute :
    (∀ (s : GLState) (p q : List (Fin 6)), p.Perm q →
        runCubeCallbacks p s = runCubeCallbacks q s)
    ∧ (∀ (program : Nat) (g : GLCtx) (i : Fin 6),
        (runCubeCallback (cubeCallbackAt i) (configureCubeMap program g).2.1.state).texImage
            (configureCubeMap program g).1 (cubeFaceTarget i) = some (cubeImageSrc i)
        ∧ ∀ target : Nat, target ≠ cubeFaceTarget i →
            (runCubeCallback (cubeCallbackAt i) (configureCubeMap program g).2.1.state).texImage
                (configureCubeMap program g).1 target
              = (configureCubeMap program g).2.1.state.texImage
                  (configureCubeMap program g).1 target)
    ∧ (∀ (program : Nat) (g : GLCtx) (p : List (Fin 6)), p.Perm cubeOrderAll →
        ∀ i : Fin 6,
          (runCubeCallbacks p (configureCubeMap program g).2.1.state).texImage
              (configureCubeMap program g).1 (cubeFaceTarget i) = some (cubeImageSrc i)) := by
  have hbound : ∀ (program : Nat) (g : GLCtx),
      (configureCubeMap program g).2.1.state.bound
          (configureCubeMap program g).2.1.state.activeUnit TEXTURE_CUBE_MAP
        = some (configureCubeMap program g).1 := by
    intro program g
    obtain ⟨hc, hcs⟩ := configureCubeMap_state program g
    rw [hcs, hc]
    simp [set2_get_same]
  refine ⟨?_, ?_, ?_⟩
  · intro s p q hperm
    exact foldl_perm_of_comm _ (fun b a1 a2 => cubeStep_comm b a1 a2) hperm s
  · intro program g i
    have hb := hbound program g
    constructor
    · rw [runCubeCallback_writes _ _ ((configureCubeMap program g).1)
        (by rw [bindingTargetOf_cubeFace]; exact hb)]
      exact set2_get_same _ _ _ _
    · intro target ht
      rw [runCubeCallback_writes _ _ ((configureCubeMap program g).1)
        (by rw [bindingTargetOf_cubeFace]; exact hb)]
      exact set2_get_ne_right _ _ _ _ _ _ ht
  · intro program g p hperm i
    have h6 : ∀ k : Fin 6, k ∈ cubeOrderAll := by decide
    exact runCubeCallbacks_face_mem p i (hperm.mem_iff.mpr (h6 i)) _ _ (hbound program g)

theorem cube_onload_commute_witness :
    runCubeCallbacks [1, 0, 2, 3, 4, 5] initGLState
        = runCubeCallbacks [0, 1, 2, 3, 4, 5] initGLState
    ∧ (runCubeCallback (cubeCallbackAt 0) (configureCubeMap 7 initGL).2.1.state).texImage
        (configureCubeMap 7 initGL).1 TEXTURE_2D
        = (configureCubeMap 7 initGL).2.1.state.texImage (configureCubeMap 7 initGL).1 TEXTURE_2D
    ∧ (runCubeCallbacks [5, 4, 3, 2, 1, 0] (configureCubeMap 7 initGL).2.1.state).texImage
        (configureCubeMap 7 initGL).1 (cubeFaceTarget 0) = some (cubeImageSrc 0) :=
  ⟨cube_onload_commute.1 initGLState [1, 0, 2, 3, 4, 5] [0, 1, 2, 3, 4, 5] (by decide),
   (cube_onload_commute.2.1 7 initGL 0).2 TEXTURE_2D (by decide),
   cube_onload_commute.2.2 7 initGL [5, 4, 3, 2, 1, 0] (by decide) 0⟩

/-! The remaining claims concern parts of the repository that are not
present under `src/` (the `Phongshading.js` render loop and input handling,
and the `box.frag` shadow computation, which the source leaves as a TODO
stub).  They are modelled from the specification below. -/

/-- A 4-by-4 matrix over the rationals. -/
def Mat4 : Type := Fin 4 → Fin 4 → Rat

/-- A homogeneous 4-vector over the rationals. -/
structure Vec4q : Type where
  x : Rat
  y : Rat
  z : Rat
  w : Rat
deriving DecidableEq, Repr

/-- A 3-vector over the rationals. -/
structure Vec3q : Type where
  x : Rat
  y : Rat
  z : Rat
deriving DecidableEq, Repr

/-- Matrix product. -/
def mat4Mul (m n : Mat4) : Mat4 :=
  fun i j => Finset.univ.sum fun k => m i k * n k j

/-- Matrix-vector product. -/
def mat4MulVec (m : Mat4) (v : Vec4q) : Vec4q :=
  { x := m 0 0 * v.x + m 0 1 * v.y + m 0 2 * v.z + m 0 3 * v.w
    y := m 1 0 * v.x + m 1 1 * v.y + m 1 2 * v.z + m 1 3 * v.w
    z := m 2 0 * v.x + m 2 1 * v.y + m 2 2 * v.z + m 2 3 * v.w
    w := m 3 0 * v.x + m 3 1 * v.y + m 3 2 * v.z + m 3 3 * v.w }

/-- The identity matrix. -/
def idMat4 : Mat4 :=
  fun i j => if i = j then 1 else 0

/-- Modelled from the spec: the look-from-light view matrix of the Shadow
Pass (`Phongshading.js` is not under `src/`); its defining feature used by
the claims is that it is a function of the light position alone, here the
translation taking the light to the origin. -/
def lightView (lightPos : Vec4q) : Mat4 :=
  fun i j =>
    if i = j then 1
    else if j.val = 3 then
      (if i.val = 0 then -lightPos.x else if i.val = 1 then -lightPos.y else -lightPos.z)
    else 0

/-- Modelled from the spec: a fixed orthographic projection sized to cover
the scene, composed with the light view into the light-space matrix. -/
def orthoProjection : Mat4 :=
  fun i j =>
    if i = j then (if i.val = 2 then -(1 / 10) else if i.val = 3 then 1 else 1 / 10)
    else 0

/-- Modelled from the spec: `lightSpaceMatrix`, composed once per frame from
the light's view and projection matrices. -/
def computeLightSpaceMatrix (lightPos : Vec4q) : Mat4 :=
  mat4Mul orthoProjection (lightView lightPos)

/-- The light-space matrices a single frame hands to its two passes. -/
structure FrameMatrices : Type where
  shadowPassMatrix : Mat4
  forwardPassMatrix : Mat4

/-- Modelled from the spec: the per-frame protocol (`Phongshading.js` is not
under `src/`): the light-space matrix is recomputed once, used to populate
the DepthAttachment in the Shadow Pass, and the same matrix is passed as
the shadow-lookup uniform of the Forward Pass. -/
def renderFrameMatrices (lightPos : Vec4q) : FrameMatrices :=
  let lsm := computeLightSpaceMatrix lightPos
  { shadowPassMatrix := lsm, forwardPassMatrix := lsm }

/-- C6: for every frame, the light-space matrix used to populate the
DepthAttachment in the Shadow Pass is identical to the light-space matrix
used by the Forward Pass's shadow lookup for that same frame, namely the
single `lightSpaceMatrix` computed from the frame's light position. -/
theorem light_matrix_bit_identical (lightPos : Vec4q) :
    (renderFrameMatrices lightPos).shadowPassMatrix
      = (renderFrameMatrices lightPos).forwardPassMatrix
    ∧ (renderFrameMatrices lightPos).shadowPassMatrix = computeLightSpaceMatrix lightPos :=
  ⟨rfl, rfl⟩

/-- Modelled from the spec: the mutable interactive parameters of
`Phongshading.js` (not under `src/`): the light's spherical coordinates and
type flag, and the camera's spherical coordinates and field of view. -/
structure SceneParams : Type where
  lightRadius : Rat
  lightTheta : Rat
  lightPhi : Rat
  lightW : Rat
  eyeRadius : Rat
  eyeTheta : Rat
  eyePhi : Rat
  eyeFov : Rat
deriving DecidableEq, Repr

/-- Modelled from the spec: `initParameters()`, the documented initial
configuration (55-degree default field of view, point light). -/
def initParameters : SceneParams :=
  { lightRadius := 4
    lightTheta := 0
    lightPhi := 0
    lightW := 1
    eyeRadius := 6
    eyeTheta := 0
    eyePhi := 0
    eyeFov := 55 }

/-- Modelled from the spec: the named keyboard actions of the Input
Controller. -/
inductive Key : Type where
  | lightPoint
  | lightDirectional
  | lightRadiusUp
  | lightRadiusDown
  | lightThetaUp
  | lightThetaDown
  | lightPhiUp
  | lightPhiDown
  | eyeThetaUp
  | eyeThetaDown
  | eyePhiUp
  | eyePhiDown
  | eyeRadiusUp
  | eyeRadiusDown
  | fovUp
  | fovDown
  | reset
deriving DecidableEq, Repr

/-- Modelled from the spec: the Input Controller's key handler; each key
mutates one parameter, and the reset key (Space) reassigns every mutable
parameter to its `initParameters` value. -/
def handleKey (k : Key) (s : SceneParams) : SceneParams :=
  match k with
  | .lightPoint => { s with lightW := 1 }
  | .lightDirectional => { s with lightW := 0 }
  | .lightRadiusUp => { s with lightRadius := s.lightRadius + 1 / 2 }
  | .lightRadiusDown => { s with lightRadius := s.lightRadius - 1 / 2 }
  | .lightThetaUp => { s with lightTheta := s.lightTheta + 5 }
  | .lightThetaDown => { s with lightTheta := s.lightTheta - 5 }
  | .lightPhiUp => { s with lightPhi := s.lightPhi + 5 }
  | .lightPhiDown => { s with lightPhi := s.lightPhi - 5 }
  | .eyeThetaUp => { s with eyeTheta := s.eyeTheta + 5 }
  | .eyeThetaDown => { s with eyeTheta := s.eyeTheta - 5 }
  | .eyePhiUp => { s with eyePhi := s.eyePhi + 5 }
  | .eyePhiDown => { s with eyePhi := s.eyePhi - 5 }
  | .eyeRadiusUp => { s with eyeRadius := s.eyeRadius + 1 / 2 }
  | .eyeRadiusDown => { s with eyeRadius := s.eyeRadius - 1 / 2 }
  | .fovUp => { s with eyeFov := s.eyeFov + 1 }
  | .fovDown => { s with eyeFov := s.eyeFov - 1 }
  | .reset =>
      { s with
        lightRadius := initParameters.lightRadius
        lightTheta := initParameters.lightTheta
        lightPhi := initParameters.lightPhi
        lightW := initParameters.lightW
        eyeRadius := initParameters.eyeRadius
        eyeTheta := initParameters.eyeTheta
        eyePhi := initParameters.eyePhi
        eyeFov := initParameters.eyeFov }

/-- Apply a sequence of key actions. -/
def applyKeys (ks : List Key) (s : SceneParams) : SceneParams :=
  ks.foldl (fun s k => handleKey k s) s

/-- C7: from every reachable mutable state (any key sequence applied to the
initial configuration), the reset action restores every mutable parameter
— light spherical coordinates, light type, camera spherical coordinates
and field of view — to exactly its documented initial value. -/
theorem reset_restores_initial (ks : List Key) :
    handleKey Key.reset (applyKeys ks initParameters) = initParameters
    ∧ (handleKey Key.reset (applyKeys ks initParameters)).lightRadius = initParameters.lightRadius
    ∧ (handleKey Key.reset (applyKeys ks initParameters)).lightTheta = initParameters.lightTheta
    ∧ (handleKey Key.reset (applyKeys ks initParameters)).lightPhi = initParameters.lightPhi
    ∧ (handleKey Key.reset (applyKeys ks initParameters)).lightW = initParameters.lightW
    ∧ (handleKey Key.reset (applyKeys ks initParameters)).eyeRadius = initParameters.eyeRadius
    ∧ (handleKey Key.reset (applyKeys ks initParameters)).eyeTheta = initParameters.eyeTheta
    ∧ (handleKey Key.reset (applyKeys ks initParameters)).eyePhi = initParameters.eyePhi
    ∧ (handleKey Key.reset (applyKeys ks initParameters)).eyeFov = initParameters.eyeFov :=
  ⟨rfl, rfl, rfl, rfl, rfl, rfl, rfl, rfl, rfl⟩

/-- Perspective divide of a homogeneous coordinate. -/
def perspectiveDivide (v : Vec4q) : Vec3q :=
  { x := v.x / v.w, y := v.y / v.w, z := v.z / v.w }

/-- Remap normalized device coordinates from [-1,1] to [0,1] texture
space. -/
def toTexSpace (p : Vec3q) : Vec3q :=
  { x := p.x * (1 / 2) + 1 / 2
    y := p.y * (1 / 2) + 1 / 2
    z := p.z * (1 / 2) + 1 / 2 }

/-- The projected coordinate falls outside the unit cube
[0,1]x[0,1]x[0,1]. -/
def outsideUnitCube (p : Vec3q) : Prop :=
  p.x < 0 ∨ 1 < p.x ∨ p.y < 0 ∨ 1 < p.y ∨ p.z < 0 ∨ 1 < p.z

instance outsideUnitCubeDecidable (p : Vec3q) : Decidable (outsideUnitCube p) :=
  inferInstanceAs (Decidable (_ ∨ _ ∨ _ ∨ _ ∨ _ ∨ _))

/-- Modelled from the spec: `shadowCalculation` of the forward fragment
shader (`box.frag`, left as the TODO3 stub in the source): project the
fragment's world position by the light-space matrix, perspective-divide,
remap to texture space; a coordinate outside the unit cube is unshadowed
(shadow factor 0); otherwise compare the biased fragment depth against the
sampled shadow-map depth. -/
def shadowCalculation (lsm : Mat4) (worldPos : Vec4q)
    (depthSample : Rat → Rat → Rat) (bias : Rat) : Rat :=
  let clip := mat4MulVec lsm worldPos
  let proj := toTexSpace (perspectiveDivide clip)
  if outsideUnitCube proj then 0
  else if depthSample proj.x proj.y < proj.z - bias then 1 else 0

/-- Clamp a value to [0,1]. -/
def clamp01 (r : Rat) : Rat :=
  min 1 (max 0 r)

/-- Modelled from the spec: the Forward Pass combine: ambient plus the
shadow-attenuated diffuse and specular terms, clamped (ambient is never
shadowed). -/
def phongWithShadow (ambient diffuse specular shadow : Rat) : Rat :=
  clamp01 (ambient + (1 - shadow) * (diffuse + specular))

/-- C8: a fragment whose world position, projected by the light-space
matrix, perspective-divided and remapped to texture space, falls outside
the unit cube is classified as unshadowed: the shadow factor is 0 and the
shaded color keeps the diffuse and specular terms at full strength. -/
theorem outside_frustum_unshadowed (lsm : Mat4) (worldPos : Vec4q)
    (depthSample : Rat → Rat → Rat) (bias : Rat)
    (h : outsideUnitCube (toTexSpace (perspectiveDivide (mat4MulVec lsm worldPos)))) :
    shadowCalculation lsm worldPos depthSample bias = 0
    ∧ ∀ ambient diffuse specular : Rat,
        phongWithShadow ambient diffuse specular
            (shadowCalculation lsm worldPos depthSample bias)
          = clamp01 (ambient + (diffuse + specular)) := by
  have hs : shadowCalculation lsm worldPos depthSample bias = 0 := by
    simp [shadowCalculation, h]
  refine ⟨hs, ?_⟩
  intro ambient diffuse specular
  rw [hs]
  simp [phongWithShadow]

theorem outside_frustum_unshadowed_witness :
    shadowCalculation idMat4 ⟨5, 0, 0, 1⟩ (fun _ _ => 0) (1 / 100) = 0
    ∧ phongWithShadow (1 / 4) (1 / 2) (1 / 8)
        (shadowCalculation idMat4 ⟨5, 0, 0, 1⟩ (fun _ _ => 0) (1 / 100))
      = clamp01 (1 / 4 + (1 / 2 + 1 / 8)) :=
  ⟨(outside_frustum_unshadowed idMat4 ⟨5, 0, 0, 1⟩ (fun _ _ => 0) (1 / 100)
      (by
        simp [outsideUnitCube, toTexSpace, perspectiveDivide, mat4MulVec, idMat4]
        norm_num)).1,
   (outside_frustum_unshadowed idMat4 ⟨5, 0, 0, 1⟩ (fun _ _ => 0) (1 / 100)
      (by
        simp [outsideUnitCube, toTexSpace, perspectiveDivide, mat4MulVec, idMat4]
        norm_num)).2
     (1 / 4) (1 / 2) (1 / 8)⟩
